import Mathlib

/-!
Verification of the event aggregation and report-generation pipeline of
`scripts/summarize_metrics.py` (the metavis repository).

The Python source is shallowly embedded: every definition below is a direct
translation of a function or code block of `summarize_metrics.py`.  Strings
are Lean `String`s (respectively `List Char` where substring reasoning is
needed); JSON numbers are modelled as exact rationals (`ℚ`), built with
`mkRat`, and all decimal formatting is carried out on the numerator and
denominator with plain natural-number arithmetic, mirroring the correctly
rounded fixed-point formatting that Python's `format` performs; absent JSON
fields are `Option.none`.  File contents are values: a possibly missing log
file is `Option (List String)` (its lines), and the writers are functions
returning the written bytes as a `String` / `List Char`.
-/

namespace Metavis

/-- Python whitespace characters recognised by `str.strip()`. -/
def isPyWs (c : Char) : Bool :=
  c = ' ' || c = '\t' || c = '\n' || c = '\r' || c = '\x0b' || c = '\x0c'

/-- Embedding of Python `str.strip()` on a character list: drop leading and
trailing whitespace. -/
def stripChars (l : List Char) : List Char :=
  ((l.dropWhile isPyWs).reverse.dropWhile isPyWs).reverse

/-- Embedding of Python `str.strip()` (used on each line of the log file). -/
def pyStrip (s : String) : String :=
  String.mk (stripChars s.data)

/-- One telemetry event, as read from one line of `perf.jsonl`.  Fields model
the JSON keys that `summarize_metrics.py` reads (`e.get(...)`), plus
`deltaE2000WorstPatch`, which the specification's data model lists as an event
field; a `none` value models an absent key.  String-valued and numeric-valued
keys are kept apart as the script's usage demands. -/
structure Event where
  runID : Option String := none
  suite : Option String := none
  label : Option String := none
  width : Option Int := none
  height : Option Int := none
  test : Option String := none
  frames : Option Int := none
  avgMs : Option ℚ := none
  peakRSSDeltaMB : Option ℚ := none
  message : Option String := none
  deltaE2000Avg : Option ℚ := none
  deltaE2000Max : Option ℚ := none
  deltaEWorstPatch : Option String := none
  deltaE2000WorstPatch : Option String := none
  lutMeanAbsErr : Option ℚ := none
  lutMaxAbsErr : Option ℚ := none
  lutWorstPatch : Option String := none
  ocioBakeName : Option String := none
  ocioBakeMeanAbsErr : Option ℚ := none
  ocioBakeMaxAbsErr : Option ℚ := none
  osVersion : Option String := none
  processArch : Option String := none
  timestampISO8601 : Option String := none
  deriving DecidableEq, Repr

/-- Embedding of the loop body of `_read_jsonl`: Python iterates over the
lines, strips each one, skips empty lines with `continue`, appends
`json.loads(line)` to `out`, and a `json.JSONDecodeError` (modelled by the
parse function returning `none`) skips the line via `continue`.  The `parse`
parameter models `json.loads` restricted to lines that decode to a structured
record (an event object); a decode failure is `none`. -/
def readLoop (parse : String → Option Event) : List String → List Event → List Event
  | [], out => out
  | l :: rest, out =>
    let s := pyStrip l
    if s.isEmpty then readLoop parse rest out
    else
      match parse s with
      | some e => readLoop parse rest (out ++ [e])
      | none => readLoop parse rest out

/-- Embedding of `_read_jsonl`: a missing file (`none`) yields `[]`;
otherwise the lines are processed by `readLoop` starting from the empty
accumulator `out = []`. -/
def readJsonl (parse : String → Option Event) (file : Option (List String)) : List Event :=
  match file with
  | none => []
  | some lines => readLoop parse lines []

/-- Embedding of the run filter
`[e for e in _read_jsonl(perf_jsonl) if e.get("runID") == args.run_id]`. -/
def filterRun (runId : String) (events : List Event) : List Event :=
  events.filter (fun e => decide (e.runID = some runId))

/-- The probe key `(e.get("suite"), e.get("label"), e.get("width"),
e.get("height"), e.get("test"))` used by the deduplication dictionary;
an absent field participates as `none`, exactly as Python's `dict.get`
yields `None`. -/
abbrev ProbeKey := Option String × Option String × Option Int × Option Int × Option String

/-- Probe key of an event (the tuple built in the dedup loop of `main`). -/
def probeKey (e : Event) : ProbeKey :=
  (e.suite, e.label, e.width, e.height, e.test)

/-- One step of the Python dict assignment `last_by_key[key] = e`: if the key
is present, its value is replaced in place (iteration order of the dict keeps
the key's original insertion position); otherwise the pair is appended.  The
association list models the insertion-ordered Python dict. -/
def upsert (acc : List (ProbeKey × Event)) (k : ProbeKey) (e : Event) :
    List (ProbeKey × Event) :=
  if acc.any (fun p => decide (p.1 = k)) then
    acc.map (fun p => if p.1 = k then (k, e) else p)
  else acc ++ [(k, e)]

/-- Embedding of the dedup loop of `main`:
`for e in events: last_by_key[key(e)] = e`. -/
def lastByKey (events : List Event) : List (ProbeKey × Event) :=
  events.foldl (fun acc e => upsert acc (probeKey e) e) []

/-- Embedding of `last_by_key.values()`: the surviving events, in first
insertion order of their keys. -/
def survivors (events : List Event) : List Event :=
  (lastByKey events).map Prod.snd

/-- Report row of the Performance category (the dict built when
`e.get("avgMs") is not None`). -/
structure PerfRow where
  suite : Option String
  label : Option String
  w : Option Int
  h : Option Int
  frames : Option Int
  avgMs : Option ℚ
  test : Option String
  deriving DecidableEq, Repr

/-- Report row of the Memory category. -/
structure MemRow where
  suite : Option String
  label : Option String
  peakRSSDeltaMB : Option ℚ
  message : Option String
  test : Option String
  deriving DecidableEq, Repr

/-- Report row of the Color (ΔE2000) category.  Note the source populates
`worst` from the key `deltaEWorstPatch` (not `deltaE2000WorstPatch`). -/
structure ColorRow where
  suite : Option String
  label : Option String
  deltaEAvg : Option ℚ
  deltaEMax : Option ℚ
  worst : Option String
  test : Option String
  deriving DecidableEq, Repr

/-- Report row of the Studio LUT reference-match category. -/
structure StudioRow where
  suite : Option String
  label : Option String
  meanAbs : Option ℚ
  maxAbs : Option ℚ
  worst : Option String
  test : Option String
  deriving DecidableEq, Repr

/-- Report row of the OCIO re-bake match category. -/
structure OcioRow where
  suite : Option String
  label : Option String
  name : Option String
  meanAbs : Option ℚ
  maxAbs : Option ℚ
  test : Option String
  deriving DecidableEq, Repr

/-- The Performance row built from a surviving event. -/
def mkPerfRow (e : Event) : PerfRow :=
  { suite := e.suite, label := e.label, w := e.width, h := e.height,
    frames := e.frames, avgMs := e.avgMs, test := e.test }

/-- The Memory row built from a surviving event. -/
def mkMemRow (e : Event) : MemRow :=
  { suite := e.suite, label := e.label, peakRSSDeltaMB := e.peakRSSDeltaMB,
    message := e.message, test := e.test }

/-- The Color row built from a surviving event; `worst` is read from the
`deltaEWorstPatch` key, exactly as `e.get("deltaEWorstPatch")` in the source. -/
def mkColorRow (e : Event) : ColorRow :=
  { suite := e.suite, label := e.label, deltaEAvg := e.deltaE2000Avg,
    deltaEMax := e.deltaE2000Max, worst := e.deltaEWorstPatch, test := e.test }

/-- The Studio LUT row built from a surviving event. -/
def mkStudioRow (e : Event) : StudioRow :=
  { suite := e.suite, label := e.label, meanAbs := e.lutMeanAbsErr,
    maxAbs := e.lutMaxAbsErr, worst := e.lutWorstPatch, test := e.test }

/-- The OCIO row built from a surviving event. -/
def mkOcioRow (e : Event) : OcioRow :=
  { suite := e.suite, label := e.label, name := e.ocioBakeName,
    meanAbs := e.ocioBakeMeanAbsErr, maxAbs := e.ocioBakeMaxAbsErr, test := e.test }

/-- Performance gate and projection: the loop appends a row exactly when
`e.get("avgMs") is not None`; iterating the survivors in order, this is a
`filterMap`. -/
def perfRowsOf (surv : List Event) : List PerfRow :=
  surv.filterMap (fun e => if e.avgMs.isSome then some (mkPerfRow e) else none)

/-- Memory gate (`peakRSSDeltaMB is not None`) and projection. -/
def memRowsOf (surv : List Event) : List MemRow :=
  surv.filterMap (fun e => if e.peakRSSDeltaMB.isSome then some (mkMemRow e) else none)

/-- Color gate (`deltaE2000Avg is not None or deltaE2000Max is not None`) and
projection. -/
def colorRowsOf (surv : List Event) : List ColorRow :=
  surv.filterMap (fun e =>
    if e.deltaE2000Avg.isSome || e.deltaE2000Max.isSome then some (mkColorRow e) else none)

/-- Studio LUT gate (`lutMeanAbsErr is not None or lutMaxAbsErr is not None`)
and projection. -/
def studioRowsOf (surv : List Event) : List StudioRow :=
  surv.filterMap (fun e =>
    if e.lutMeanAbsErr.isSome || e.lutMaxAbsErr.isSome then some (mkStudioRow e) else none)

/-- OCIO gate (`ocioBakeMeanAbsErr is not None or ocioBakeMaxAbsErr is not
None`) and projection. -/
def ocioRowsOf (surv : List Event) : List OcioRow :=
  surv.filterMap (fun e =>
    if e.ocioBakeMeanAbsErr.isSome || e.ocioBakeMaxAbsErr.isSome then some (mkOcioRow e) else none)

/-- Exactly `places` decimal digit characters of `n` (most significant first,
zero-padded on the left); the fractional part of a fixed-point rendering. -/
def natDigitsFixed : Nat → Nat → String
  | 0, _ => ""
  | p + 1, n => natDigitsFixed p (n / 10) ++ String.mk [Char.ofNat (48 + n % 10)]

/-- Round `num / den` to the nearest integer, ties to even — the correct
rounding that Python's fixed-point `format` applies to the exact value being
formatted. -/
def roundHalfEvenNat (num den : Nat) : Nat :=
  let f := num / den
  let r := num % den
  if 2 * r < den then f
  else if den < 2 * r then f + 1
  else if f % 2 = 0 then f else f + 1

/-- Fixed-point rendering `f"{q:.{places}f}"` of an exact rational value:
round `|q| * 10 ^ places` to the nearest integer (ties to even) and print it
with a decimal point `places` digits from the right, with a leading sign for
negative values.  Computed on the reduced numerator/denominator with natural
arithmetic. -/
def fmtFixed (places : Nat) (q : ℚ) : String :=
  let n := roundHalfEvenNat (q.num.natAbs * 10 ^ places) q.den
  let sign := if q.num < 0 then "-" else ""
  if places = 0 then sign ++ toString n
  else sign ++ toString (n / 10 ^ places) ++ "." ++ natDigitsFixed places (n % 10 ^ places)

/-- Embedding of `_fmt_ms`: `"" if v is None else f"{v:.2f}"`. -/
def fmtMs (v : Option ℚ) : String :=
  match v with
  | none => ""
  | some q => fmtFixed 2 q

/-- Embedding of `_fmt`: `"" if v is None else f"{v:.{places}f}"` (the source
declares a default `places=6`, never used by the renderer, which always passes
`places` explicitly). -/
def fmt (v : Option ℚ) (places : Nat) : String :=
  match v with
  | none => ""
  | some q => fmtFixed places q

/-- Embedding of `_safe`: `s if s is not None else ""`. -/
def safe (s : Option String) : String :=
  s.getD ""

/-- Python truthiness of an optional integer (`r.get("w") and r.get("h")`):
`None` and `0` are falsy, every other integer is truthy. -/
def truthyInt : Option Int → Bool
  | none => false
  | some a => a != 0

/-- Python `f"{v}"` of an optional integer (`None` prints as `"None"`; the
renderer only reaches the `none` arm for the frames cell). -/
def optIntStr : Option Int → String
  | none => "None"
  | some a => toString a

/-- The Performance resolution cell:
`f"{r['w']}x{r['h']}" if r.get("w") and r.get("h") else ""`. -/
def resCell (w h : Option Int) : String :=
  if truthyInt w && truthyInt h then optIntStr w ++ "x" ++ optIntStr h else ""

/-- The Performance frames cell `{r.get('frames','')}`: the `"frames"` key is
always present in the row dict (possibly holding `None`), so the `''` default
of `dict.get` is never taken and a `None` value prints as `"None"`. -/
def framesCell (v : Option Int) : String :=
  optIntStr v

/-- Strict lexicographic comparison of two character lists by code point,
Python's `<` on strings. -/
def strLt : List Char → List Char → Bool
  | [], [] => false
  | [], _ :: _ => true
  | _ :: _, [] => false
  | a :: as, b :: bs =>
    if a.toNat < b.toNat then true
    else if b.toNat < a.toNat then false
    else strLt as bs

/-- Non-strict string comparison (Python `<=` on strings). -/
def strLe (a b : List Char) : Bool :=
  strLt a b || decide (a = b)

/-- Insert `x` into `acc` after every element `y` with `le y x`; the
insertion step of a stable ascending sort. -/
def insertLe (le : α → α → Bool) (x : α) : List α → List α
  | [] => [x]
  | y :: ys => if le y x then y :: insertLe le x ys else x :: y :: ys

/-- Stable ascending sort, modelling Python's stable `list.sort(key=...)`:
elements are taken in original order and each is inserted after all elements
with a less-or-equal key. -/
def sortLe (le : α → α → Bool) (l : List α) : List α :=
  l.foldl (fun acc x => insertLe le x acc) []

/-- Sort key comparison of `perf_rows.sort(key=lambda r: (r["label"] or "",
r["h"] or 0))`: lexicographic on the pair. -/
def perfLe (r₁ r₂ : PerfRow) : Bool :=
  let l₁ := (safe r₁.label).data
  let l₂ := (safe r₂.label).data
  strLt l₁ l₂ || (decide (l₁ = l₂) && decide (r₁.h.getD 0 ≤ r₂.h.getD 0))

/-- Sort key comparison of `(r["label"] or "", r["test"] or "")`. -/
def labelTestLe (label₁ test₁ label₂ test₂ : Option String) : Bool :=
  let l₁ := (safe label₁).data
  let l₂ := (safe label₂).data
  strLt l₁ l₂ || (decide (l₁ = l₂) && strLe (safe test₁).data (safe test₂).data)

/-- Memory row comparison. -/
def memLe (r₁ r₂ : MemRow) : Bool :=
  labelTestLe r₁.label r₁.test r₂.label r₂.test

/-- Color row comparison. -/
def colorLe (r₁ r₂ : ColorRow) : Bool :=
  labelTestLe r₁.label r₁.test r₂.label r₂.test

/-- Studio LUT row comparison. -/
def studioLe (r₁ r₂ : StudioRow) : Bool :=
  labelTestLe r₁.label r₁.test r₂.label r₂.test

/-- OCIO row comparison: `(_safe(r["name"]), r["test"] or "")`. -/
def ocioLe (r₁ r₂ : OcioRow) : Bool :=
  labelTestLe r₁.name r₁.test r₂.name r₂.test

/-- One Performance table line, verbatim from the f-string in `main`. -/
def perfRowLine (r : PerfRow) : String :=
  "| " ++ safe r.label ++ " | " ++ resCell r.w r.h ++ " | " ++ framesCell r.frames ++
    " | " ++ fmtMs r.avgMs ++ " | " ++ safe r.suite ++ " | " ++ safe r.test ++ " |\n"

/-- One Memory table line (`_fmt(r['peakRSSDeltaMB'], places=3)`). -/
def memRowLine (r : MemRow) : String :=
  "| " ++ safe r.label ++ " | " ++ fmt r.peakRSSDeltaMB 3 ++ " | " ++ safe r.message ++
    " | " ++ safe r.suite ++ " | " ++ safe r.test ++ " |\n"

/-- One Color table line (`_fmt(..., places=4)` twice). -/
def colorRowLine (r : ColorRow) : String :=
  "| " ++ safe r.label ++ " | " ++ fmt r.deltaEAvg 4 ++ " | " ++ fmt r.deltaEMax 4 ++
    " | " ++ safe r.worst ++ " | " ++ safe r.suite ++ " | " ++ safe r.test ++ " |\n"

/-- One Studio LUT table line (`_fmt(..., places=8)` twice). -/
def studioRowLine (r : StudioRow) : String :=
  "| " ++ safe r.label ++ " | " ++ fmt r.meanAbs 8 ++ " | " ++ fmt r.maxAbs 8 ++
    " | " ++ safe r.worst ++ " | " ++ safe r.suite ++ " | " ++ safe r.test ++ " |\n"

/-- One OCIO table line (`_fmt(..., places=10)` twice). -/
def ocioRowLine (r : OcioRow) : String :=
  "| " ++ safe r.name ++ " | " ++ fmt r.meanAbs 10 ++ " | " ++ fmt r.maxAbs 10 ++
    " | " ++ safe r.suite ++ " | " ++ safe r.test ++ " |\n"

/-- The `- os:` header line: written only when `header.get("osVersion")` is
truthy (a non-empty string). -/
def osLine (osv : Option String) : String :=
  match osv with
  | some s => if s.isEmpty then "" else "- os: `" ++ s ++ "`\n"
  | none => ""

/-- The `- arch:` header line, same truthiness guard. -/
def archLine (arch : Option String) : String :=
  match arch with
  | some s => if s.isEmpty then "" else "- arch: `" ++ s ++ "`\n"
  | none => ""

/-- The `- generatedUTC:` header line: `header["generatedUTC"]` is the
`strftime` result, written when truthy (non-empty). -/
def generatedLine (g : String) : String :=
  if g.isEmpty then "" else "- generatedUTC: `" ++ g ++ "`\n"

/-- The Performance section: placeholder line when the row list is empty,
otherwise table header plus one line per sorted row plus a blank line. -/
def perfSection (rows : List PerfRow) : String :=
  "## Performance\n\n" ++
    (if rows.isEmpty then "(no perf events found for this run)\n\n"
     else "| label | res | frames | avgMs | suite | test |\n|---|---:|---:|---:|---|---|\n" ++
       String.join (rows.map perfRowLine) ++ "\n")

/-- The Memory section. -/
def memSection (rows : List MemRow) : String :=
  "## Memory\n\n" ++
    (if rows.isEmpty then "(no memory events found for this run)\n\n"
     else "| label | peakRSSDeltaMB | message | suite | test |\n|---|---:|---|---|---|\n" ++
       String.join (rows.map memRowLine) ++ "\n")

/-- The Color (ΔE2000) section. -/
def colorSection (rows : List ColorRow) : String :=
  "## Color (ΔE2000)\n\n" ++
    (if rows.isEmpty then "(no ΔE events found for this run)\n\n"
     else "| label | ΔE avg | ΔE max | worst | suite | test |\n|---|---:|---:|---|---|---|\n" ++
       String.join (rows.map colorRowLine) ++ "\n")

/-- The Studio LUT reference-match section. -/
def studioSection (rows : List StudioRow) : String :=
  "## Studio LUT Reference Match\n\n" ++
    (if rows.isEmpty then "(no Studio LUT match events found for this run)\n\n"
     else "| label | meanAbsErr | maxAbsErr | worst | suite | test |\n|---|---:|---:|---|---|---|\n" ++
       String.join (rows.map studioRowLine) ++ "\n")

/-- The OCIO re-bake match section. -/
def ocioSection (rows : List OcioRow) : String :=
  "## OCIO Re-bake Match\n\n" ++
    (if rows.isEmpty then "(no OCIO bake match events found for this run)\n\n"
     else "| name | meanAbsErr | maxAbsErr | suite | test |\n|---|---:|---:|---|---|\n" ++
       String.join (rows.map ocioRowLine) ++ "\n")

/-- The closing Files section; the two relative paths are
`os.path.relpath(events_jsonl, repo_root)` and
`os.path.relpath(summary_md, repo_root)`, taken here as parameters. -/
def filesSection (relEvents relSummary : String) : String :=
  "## Files\n\n- events: `" ++ relEvents ++ "`\n- summary: `" ++ relSummary ++ "`\n"

/-- The complete `summary.md` byte content written by `main` for the given
filtered event slice: header block (runID, raw event count, optional
environment lines taken from the first filtered event, generation timestamp),
then the five category sections built from the deduplicated survivors with
their stable per-category sorts, then the Files section.  `generatedUTC` is
the `datetime.now(timezone.utc).strftime(...)` string, a parameter of the
embedding because it is read from the wall clock. -/
def summaryText (runId generatedUTC : String) (events : List Event)
    (relEvents relSummary : String) : String :=
  let surv := survivors events
  let perfRows := sortLe perfLe (perfRowsOf surv)
  let memRows := sortLe memLe (memRowsOf surv)
  let colorRows := sortLe colorLe (colorRowsOf surv)
  let studioRows := sortLe studioLe (studioRowsOf surv)
  let ocioRows := sortLe ocioLe (ocioRowsOf surv)
  "# MetaVis Metrics Run\n\n" ++
    ("- runID: `" ++ runId ++ "`\n") ++
    ("- events: `" ++ toString events.length ++ "`\n") ++
    osLine (events.head?.bind Event.osVersion) ++
    archLine (events.head?.bind Event.processArch) ++
    generatedLine generatedUTC ++
    "\n" ++
    perfSection perfRows ++
    memSection memRows ++
    colorSection colorRows ++
    studioSection studioRows ++
    ocioSection ocioRows ++
    filesSection relEvents relSummary

/-- A JSON field fragment of `json.dumps(e)` for an optional string value
(absent fields are not in the dict, hence not serialized). -/
def jsonFieldS (k : String) (v : Option String) : String :=
  match v with
  | none => ""
  | some s => ", \x22" ++ k ++ "\x22: \x22" ++ s ++ "\x22"

/-- A JSON field fragment for an optional integer value. -/
def jsonFieldI (k : String) (v : Option Int) : String :=
  match v with
  | none => ""
  | some i => ", \x22" ++ k ++ "\x22: " ++ toString i

/-- A JSON field fragment for an optional numeric value (rendered here with
numerator/denominator; the claims never inspect this text, only compare it
across runs). -/
def jsonFieldQ (k : String) (v : Option ℚ) : String :=
  match v with
  | none => ""
  | some q => ", \x22" ++ k ++ "\x22: " ++ toString q.num ++ "/" ++ toString q.den

/-- Deterministic embedding of `json.dumps(e, ensure_ascii=False)` on the
event model: a fixed field order, absent fields omitted. -/
def serializeEvent (e : Event) : String :=
  "\x7b" ++
    jsonFieldS "runID" e.runID ++ jsonFieldS "suite" e.suite ++
    jsonFieldS "label" e.label ++ jsonFieldI "width" e.width ++
    jsonFieldI "height" e.height ++ jsonFieldS "test" e.test ++
    jsonFieldI "frames" e.frames ++ jsonFieldQ "avgMs" e.avgMs ++
    jsonFieldQ "peakRSSDeltaMB" e.peakRSSDeltaMB ++ jsonFieldS "message" e.message ++
    jsonFieldQ "deltaE2000Avg" e.deltaE2000Avg ++ jsonFieldQ "deltaE2000Max" e.deltaE2000Max ++
    jsonFieldS "deltaEWorstPatch" e.deltaEWorstPatch ++
    jsonFieldS "deltaE2000WorstPatch" e.deltaE2000WorstPatch ++
    jsonFieldQ "lutMeanAbsErr" e.lutMeanAbsErr ++ jsonFieldQ "lutMaxAbsErr" e.lutMaxAbsErr ++
    jsonFieldS "lutWorstPatch" e.lutWorstPatch ++ jsonFieldS "ocioBakeName" e.ocioBakeName ++
    jsonFieldQ "ocioBakeMeanAbsErr" e.ocioBakeMeanAbsErr ++
    jsonFieldQ "ocioBakeMaxAbsErr" e.ocioBakeMaxAbsErr ++
    jsonFieldS "osVersion" e.osVersion ++ jsonFieldS "processArch" e.processArch ++
    jsonFieldS "timestampISO8601" e.timestampISO8601 ++
    "\x7d"

/-- The `events.jsonl` byte content: `json.dumps(e) + "\n"` for each filtered
event, in log order (the write is a full-file overwrite in mode `"w"`). -/
def eventsJsonlText (events : List Event) : String :=
  String.join (events.map (fun e => serializeEvent e ++ "\n"))

/-- One archiver run of `main` on a log file: filter the parsed log by the
run identifier, then produce the bytes of `events.jsonl` (first component)
and of `summary.md` (second component); both files are opened in mode `"w"`,
so the written files equal these strings. -/
def archive (parse : String → Option Event) (log : Option (List String))
    (runId generatedUTC relEvents relSummary : String) : String × String :=
  let events := filterRun runId (readJsonl parse log)
  (eventsJsonlText events, summaryText runId generatedUTC events relEvents relSummary)

/-- Split at the first occurrence of `sep`, Python's `s.split(sep, 1)`
restricted to a non-empty in-practice separator: `some (a, b)` when
`s = a ++ sep ++ b` at the first occurrence, `none` when `sep` does not occur
in `s` (Python then returns the one-element list `[s]`). -/
def splitOnce (sep : List Char) : List Char → Option (List Char × List Char)
  | [] => if sep.isPrefixOf [] then some ([], []) else none
  | c :: rest =>
    if sep.isPrefixOf (c :: rest) then some ([], (c :: rest).drop sep.length)
    else
      match splitOnce sep rest with
      | some (a, b) => some (c :: a, b)
      | none => none

/-- Python's substring test `pat in s` on character lists. -/
def containsSub (pat : List Char) : List Char → Bool
  | [] => pat.isPrefixOf []
  | c :: rest => pat.isPrefixOf (c :: rest) || containsSub pat rest

/-- The `"## Runs\n\n"` marker of the index file. -/
def runsMarker : List Char :=
  String.data ("## Runs\n\n")

/-- The index entry line
`f"- \x60{args.run_id}\x60: \x60{rel_run}/summary.md\x60\n"`. -/
def indexLine (runId relRun : List Char) : List Char :=
  String.data ("- `") ++ runId ++ String.data ("`: `") ++ relRun ++
    String.data ("/summary.md`\n")

/-- The index update of `main` on the existing file content: if the entry
line occurs anywhere in the content (`line not in existing` fails), the file
is left untouched; otherwise the content is split at the first
`"## Runs\n\n"` marker and the line is inserted right after it, and when the
marker is absent (`split` yields a single part) the line is appended at
end-of-file after a newline. -/
def updateIndex (existing line : List Char) : List Char :=
  if containsSub line existing then existing
  else
    match splitOnce runsMarker existing with
    | some (head, rest) => head ++ runsMarker ++ line ++ rest
    | none => existing ++ '\n' :: line

/-- The fixed preamble written when the index file does not exist yet. -/
def indexPreamble : List Char :=
  String.data ("# Metrics Runs\n\nEach run is stored under `test_outputs/metrics/<runID>/`.\n\nRun with: `scripts/run_metrics.sh`\n\n## Runs\n\n")

/-- Accumulator characterization of the `_read_jsonl` loop: the records
appended are exactly the parses of the non-blank stripped lines, in file
order. -/
theorem readLoop_eq_filterMap (parse : String → Option Event) :
    ∀ lines out, readLoop parse lines out =
      out ++ lines.filterMap
        (fun l => if (pyStrip l).isEmpty then none else parse (pyStrip l)) := by
  intro lines
  induction lines with
  | nil => intro out; simp [readLoop]
  | cons l rest ih =>
    intro out
    by_cases hs : (pyStrip l).isEmpty
    · simp [readLoop, hs, ih]
    · cases hp : parse (pyStrip l) with
      | some e => simp [readLoop, hs, hp, ih]
      | none => simp [readLoop, hs, hp, ih]

/-- C6: the event source reader `_read_jsonl` maps a missing file to the
empty sequence rather than an error; on a present file it returns, in file
order, exactly the records of the non-blank lines whose (stripped) text
parses as a structured record — each line is handled independently, a parse
failure contributes no record at all (`Option` parsing cannot emit a partial
record), and a failing line leaves the processing of the remaining lines
unchanged. -/
theorem readJsonl_reads_exactly_parsed_lines (parse : String → Option Event) :
    readJsonl parse none = [] ∧
    (∀ lines, readJsonl parse (some lines) =
      lines.filterMap
        (fun l => if (pyStrip l).isEmpty then none else parse (pyStrip l))) ∧
    (∀ l lines, parse (pyStrip l) = none →
      readJsonl parse (some (l :: lines)) = readJsonl parse (some lines)) := by
  refine ⟨rfl, ?_, ?_⟩
  · intro lines
    simpa using readLoop_eq_filterMap parse lines []
  · intro l lines hp
    by_cases hs : (pyStrip l).isEmpty <;>
      simp [readJsonl, readLoop, hs, hp, readLoop_eq_filterMap]

/-- Witness for C6: a parser rejecting everything skips the malformed line
`"x"` and the read continues (both sides evaluate to `[]`). -/
theorem readJsonl_reads_exactly_parsed_lines_witness :
    readJsonl (fun _ => none) (some ["x"]) = readJsonl (fun _ => none) (some []) :=
  (readJsonl_reads_exactly_parsed_lines (fun _ => none)).2.2 "x" []
    rfl

/-- C8: categorization gates are independent: an event whose only measurement
field is `avgMs` contributes exactly one Performance row and no Memory,
Color, Studio-LUT or OCIO row. -/
theorem only_avgMs_gives_one_perf_row (e : Event)
    (ha : e.avgMs.isSome = true)
    (h₁ : e.peakRSSDeltaMB = none)
    (h₂ : e.deltaE2000Avg = none) (h₃ : e.deltaE2000Max = none)
    (h₄ : e.lutMeanAbsErr = none) (h₅ : e.lutMaxAbsErr = none)
    (h₆ : e.ocioBakeMeanAbsErr = none) (h₇ : e.ocioBakeMaxAbsErr = none) :
    perfRowsOf [e] = [mkPerfRow e] ∧ memRowsOf [e] = [] ∧
    colorRowsOf [e] = [] ∧ studioRowsOf [e] = [] ∧ ocioRowsOf [e] = [] := by
  refine ⟨?_, ?_, ?_, ?_, ?_⟩ <;>
    simp [perfRowsOf, memRowsOf, colorRowsOf, studioRowsOf, ocioRowsOf,
      ha, h₁, h₂, h₃, h₄, h₅, h₆, h₇]

/-- Witness for C8: a concrete event carrying only `avgMs`. -/
theorem only_avgMs_gives_one_perf_row_witness :
    perfRowsOf [{ avgMs := some (mkRat 5 1) }] =
      [mkPerfRow { avgMs := some (mkRat 5 1) }] ∧
    memRowsOf [{ avgMs := some (mkRat 5 1) }] = [] ∧
    colorRowsOf [{ avgMs := some (mkRat 5 1) }] = [] ∧
    studioRowsOf [{ avgMs := some (mkRat 5 1) }] = [] ∧
    ocioRowsOf [{ avgMs := some (mkRat 5 1) }] = [] :=
  only_avgMs_gives_one_perf_row { avgMs := some (mkRat 5 1) }
    rfl rfl rfl rfl rfl rfl rfl rfl

/-- C10: the Performance resolution cell is `"WxH"` only when both width and
height are present and non-zero (Python truthiness); any absent or zero
component renders the whole cell as the empty string. -/
theorem resolution_cell_requires_truthy_width_height (w h : Option Int) :
    ((w = none ∨ h = none ∨ w = some 0 ∨ h = some 0) → resCell w h = "") ∧
    (∀ a b : Int, w = some a → h = some b → a ≠ 0 → b ≠ 0 →
      resCell w h = toString a ++ "x" ++ toString b) := by
  constructor
  · rintro (rfl | rfl | rfl | rfl) <;> simp [resCell, truthyInt]
  · rintro a b rfl rfl ha hb
    simp [resCell, truthyInt, optIntStr, bne_iff_ne, ha, hb]

/-- Witness for C10: present width `5` with height `0` renders no resolution
at all, while `6` by `4` renders `"6x4"`. -/
theorem resolution_cell_requires_truthy_width_height_witness :
    resCell (some 5) (some 0) = "" ∧
    resCell (some 6) (some 4) = toString (6 : Int) ++ "x" ++ toString (4 : Int) :=
  ⟨(resolution_cell_requires_truthy_width_height (some 5) (some 0)).1
      (Or.inr (Or.inr (Or.inr rfl))),
    (resolution_cell_requires_truthy_width_height (some 6) (some 4)).2 6 4 rfl rfl
      (by decide) (by decide)⟩

/-- C9: every numeric cell is rendered at its category's fixed precision —
avgMs to 2 decimal places, peakRSSDeltaMB to 3, ΔE2000 values to 4, LUT
errors to 8, external-bake errors to 10 — and an absent value renders as the
empty string, never as a placeholder number; in particular an `avgMs` of
`12.3` renders as `"12.30"` and a `lutMeanAbsErr` of `0.1` as
`"0.10000000"`. -/
theorem numeric_cells_use_fixed_precision :
    (fmtMs none = "" ∧ fmt none 3 = "" ∧ fmt none 4 = "" ∧ fmt none 8 = "" ∧
      fmt none 10 = "") ∧
    fmtMs (some (mkRat 123 10)) = "12.30" ∧
    fmt (some (mkRat 1 10)) 8 = "0.10000000" ∧
    (∀ r : PerfRow, perfRowLine r =
      "| " ++ safe r.label ++ " | " ++ resCell r.w r.h ++ " | " ++
        framesCell r.frames ++ " | " ++
        (match r.avgMs with | none => "" | some q => fmtFixed 2 q) ++ " | " ++
        safe r.suite ++ " | " ++ safe r.test ++ " |\n") ∧
    (∀ r : MemRow, memRowLine r =
      "| " ++ safe r.label ++ " | " ++
        (match r.peakRSSDeltaMB with | none => "" | some q => fmtFixed 3 q) ++
        " | " ++ safe r.message ++ " | " ++ safe r.suite ++ " | " ++
        safe r.test ++ " |\n") ∧
    (∀ r : ColorRow, colorRowLine r =
      "| " ++ safe r.label ++ " | " ++
        (match r.deltaEAvg with | none => "" | some q => fmtFixed 4 q) ++ " | " ++
        (match r.deltaEMax with | none => "" | some q => fmtFixed 4 q) ++ " | " ++
        safe r.worst ++ " | " ++ safe r.suite ++ " | " ++ safe r.test ++ " |\n") ∧
    (∀ r : StudioRow, studioRowLine r =
      "| " ++ safe r.label ++ " | " ++
        (match r.meanAbs with | none => "" | some q => fmtFixed 8 q) ++ " | " ++
        (match r.maxAbs with | none => "" | some q => fmtFixed 8 q) ++ " | " ++
        safe r.worst ++ " | " ++ safe r.suite ++ " | " ++ safe r.test ++ " |\n") ∧
    (∀ r : OcioRow, ocioRowLine r =
      "| " ++ safe r.name ++ " | " ++
        (match r.meanAbs with | none => "" | some q => fmtFixed 10 q) ++ " | " ++
        (match r.maxAbs with | none => "" | some q => fmtFixed 10 q) ++ " | " ++
        safe r.suite ++ " | " ++ safe r.test ++ " |\n") := by
  refine ⟨⟨rfl, rfl, rfl, rfl, rfl⟩, by decide, by decide, ?_, ?_, ?_, ?_, ?_⟩ <;>
    intro r <;> rfl

/-- Witness for C9: a Memory row with every field absent renders all-empty
cells. -/
theorem numeric_cells_use_fixed_precision_witness :
    memRowLine ⟨none, none, none, none, none⟩ = "|  |  |  |  |  |\n" :=
  (numeric_cells_use_fixed_precision.2.2.2.2.1 ⟨none, none, none, none, none⟩).trans
    (by decide)

/-- A color-accuracy event as the specification's data model describes one:
it carries `deltaE2000Avg` and names its worst patch under the key
`deltaE2000WorstPatch`. -/
def colorProbeEvent : Event :=
  { runID := some "r", suite := some "s", label := some "l", test := some "t",
    deltaE2000Avg := some (mkRat 1 1),
    deltaE2000WorstPatch := some "patch7" }

/-- C2 (code evaluated at the failing input): the source populates the Color
row's `worst` field from the key `deltaEWorstPatch`, so for an event whose
worst patch is recorded under `deltaE2000WorstPatch` (the key the
specification's data model lists) the emitted row carries `none` and the
rendered worst cell is empty — it does not equal the event's
`deltaE2000WorstPatch` value `"patch7"`. -/
theorem color_worst_cell_drops_deltaE2000WorstPatch :
    colorRowsOf [colorProbeEvent] = [mkColorRow colorProbeEvent] ∧
    (mkColorRow colorProbeEvent).worst = none ∧
    colorProbeEvent.deltaE2000WorstPatch = some "patch7" ∧
    (mkColorRow colorProbeEvent).worst ≠ colorProbeEvent.deltaE2000WorstPatch ∧
    colorRowLine (mkColorRow colorProbeEvent) = "| l | 1.0000 |  |  | s | t |\n" := by
  refine ⟨rfl, rfl, rfl, by decide, by decide⟩

/-- Correctness of the first-occurrence split: a successful split is a
decomposition of the input around the separator. -/
theorem splitOnce_eq (sep : List Char) :
    ∀ s a b, splitOnce sep s = some (a, b) → s = a ++ sep ++ b := by
  intro s
  induction s with
  | nil =>
    intro a b h
    cases sep with
    | nil =>
      simp [splitOnce, List.isPrefixOf] at h
      obtain ⟨rfl, rfl⟩ := h
      rfl
    | cons c cs => simp [splitOnce, List.isPrefixOf] at h
  | cons c rest ih =>
    intro a b h
    rw [splitOnce] at h
    cases hp : sep.isPrefixOf (c :: rest) with
    | true =>
      rw [hp] at h
      simp only [if_true] at h
      obtain ⟨t, ht⟩ := List.isPrefixOf_iff_prefix.mp hp
      obtain ⟨rfl, rfl⟩ := Prod.mk.injEq .. ▸ Option.some.injEq .. ▸ h
      calc c :: rest = sep ++ t := ht.symm
        _ = [] ++ sep ++ (c :: rest).drop sep.length := by
            rw [← ht, List.drop_left]
            simp
    | false =>
      rw [hp] at h
      simp only [Bool.false_eq_true, if_false] at h
      cases hsp : splitOnce sep rest with
      | none => rw [hsp] at h; simp at h
      | some ab =>
        obtain ⟨a', b'⟩ := ab
        rw [hsp] at h
        simp only [Option.some.injEq, Prod.mk.injEq] at h
        obtain ⟨rfl, rfl⟩ := h
        simpa using congrArg (c :: ·) (ih a' b' hsp)

/-- The Python substring test agrees with the success of the
first-occurrence split (both scan for an occurrence of the pattern). -/
theorem containsSub_eq_isSome (pat : List Char) :
    ∀ s, containsSub pat s = (splitOnce pat s).isSome := by
  intro s
  induction s with
  | nil =>
    cases hp : pat.isPrefixOf ([] : List Char) <;>
      simp [containsSub, splitOnce, hp]
  | cons c rest ih =>
    cases hp : pat.isPrefixOf (c :: rest) with
    | true => simp [containsSub, splitOnce, hp]
    | false =>
      cases hsp : splitOnce pat rest with
      | none => simp [containsSub, splitOnce, hp, hsp, ih]
      | some ab => simp [containsSub, splitOnce, hp, hsp, ih]

/-- The Python substring test is the infix relation. -/
theorem containsSub_correct (pat : List Char) :
    ∀ s, containsSub pat s = true ↔ pat <:+: s := by
  intro s
  induction s with
  | nil =>
    simp [containsSub, List.isPrefixOf_iff_prefix]
  | cons c rest ih =>
    rw [containsSub, List.infix_cons_iff, Bool.or_eq_true,
      List.isPrefixOf_iff_prefix, ih]

/-- A pattern occurring literally in the middle of a concatenation is found
by the substring test. -/
theorem containsSub_middle (pat x y : List Char) :
    containsSub pat (x ++ pat ++ y) = true :=
  (containsSub_correct pat (x ++ pat ++ y)).mpr ⟨x, y, rfl⟩

/-- C4: the index update is idempotent on the file content: when the entry
line already occurs in the content no write happens (the content is returned
unchanged), and running the update twice yields byte-identical content after
the second run as after the first. -/
theorem update_index_idempotent (existing line : List Char) :
    updateIndex (updateIndex existing line) line = updateIndex existing line ∧
    (containsSub line existing = true → updateIndex existing line = existing) := by
  have hkeep : ∀ s, containsSub line s = true → updateIndex s line = s := by
    intro s h
    simp [updateIndex, h]
  refine ⟨?_, hkeep existing⟩
  cases hc : containsSub line existing with
  | true =>
    rw [hkeep existing hc]
    exact hkeep existing hc
  | false =>
    have hup : updateIndex existing line =
        match splitOnce runsMarker existing with
        | some (head, rest) => head ++ runsMarker ++ line ++ rest
        | none => existing ++ '\n' :: line := by
      simp [updateIndex, hc]
    cases hsp : splitOnce runsMarker existing with
    | some ab =>
      obtain ⟨a, b⟩ := ab
      rw [hup, hsp]
      exact hkeep _ (containsSub_middle line (a ++ runsMarker) b)
    | none =>
      rw [hup, hsp]
      refine hkeep _ ?_
      have h2 : existing ++ '\n' :: line = (existing ++ ['\n']) ++ line ++ [] := by
        simp
      rw [h2]
      exact containsSub_middle line (existing ++ ['\n']) []

/-- Witness for C4: a content already holding the entry line is returned
unchanged, and a second update changes nothing. -/
theorem update_index_idempotent_witness :
    updateIndex
        (updateIndex (String.data ("## Runs\n\n- `r`: `r/summary.md`\n"))
          (indexLine (String.data ("r")) (String.data ("r"))))
        (indexLine (String.data ("r")) (String.data ("r"))) =
      updateIndex (String.data ("## Runs\n\n- `r`: `r/summary.md`\n"))
        (indexLine (String.data ("r")) (String.data ("r"))) ∧
    updateIndex (String.data ("## Runs\n\n- `r`: `r/summary.md`\n"))
        (indexLine (String.data ("r")) (String.data ("r"))) =
      String.data ("## Runs\n\n- `r`: `r/summary.md`\n") :=
  ⟨(update_index_idempotent (String.data ("## Runs\n\n- `r`: `r/summary.md`\n"))
      (indexLine (String.data ("r")) (String.data ("r")))).1,
    (update_index_idempotent (String.data ("## Runs\n\n- `r`: `r/summary.md`\n"))
      (indexLine (String.data ("r")) (String.data ("r")))).2 (by decide)⟩

/-- C5: on content not containing the entry line, the update inserts the line
immediately after the `"## Runs\n\n"` marker when the marker occurs in the
content, and otherwise appends the line at end-of-file (after a newline)
instead of failing. -/
theorem update_index_insert_after_marker_or_append (existing line : List Char)
    (hline : containsSub line existing = false) :
    (containsSub runsMarker existing = true →
      ∃ a b, existing = a ++ runsMarker ++ b ∧
        updateIndex existing line = a ++ runsMarker ++ line ++ b) ∧
    (containsSub runsMarker existing = false →
      updateIndex existing line = existing ++ '\n' :: line) := by
  constructor
  · intro hm
    rw [containsSub_eq_isSome] at hm
    cases hsp : splitOnce runsMarker existing with
    | none => rw [hsp] at hm; simp at hm
    | some ab =>
      obtain ⟨a, b⟩ := ab
      exact ⟨a, b, splitOnce_eq runsMarker existing a b hsp, by simp [updateIndex, hline, hsp]⟩
  · intro hm
    rw [containsSub_eq_isSome] at hm
    cases hsp : splitOnce runsMarker existing with
    | none => simp [updateIndex, hline, hsp]
    | some ab => rw [hsp] at hm; simp at hm

/-- Witness for C5: on the fresh preamble the entry line is inserted right
after the Runs marker, and on marker-free content it is appended at
end-of-file. -/
theorem update_index_insert_after_marker_or_append_witness :
    (∃ a b, indexPreamble = a ++ runsMarker ++ b ∧
      updateIndex indexPreamble (indexLine (String.data ("r")) (String.data ("r"))) =
        a ++ runsMarker ++ indexLine (String.data ("r")) (String.data ("r")) ++ b) ∧
    updateIndex (String.data ("# no marker\n"))
        (indexLine (String.data ("r")) (String.data ("r"))) =
      String.data ("# no marker\n") ++ '\n' ::
        indexLine (String.data ("r")) (String.data ("r")) :=
  ⟨(update_index_insert_after_marker_or_append indexPreamble
      (indexLine (String.data ("r")) (String.data ("r"))) (by decide)).1 (by decide),
    (update_index_insert_after_marker_or_append (String.data ("# no marker\n"))
      (indexLine (String.data ("r")) (String.data ("r"))) (by decide)).2 (by decide)⟩

/-- Appending one event to the log runs one more `last_by_key[key] = e`
step. -/
theorem lastByKey_concat (events : List Event) (e : Event) :
    lastByKey (events ++ [e]) = upsert (lastByKey events) (probeKey e) e := by
  simp [lastByKey, List.foldl_append]

/-- Membership after a dict assignment: a pair of the updated dict either is
the newly written pair or was present before under a different key. -/
theorem mem_upsert {l : List (ProbeKey × Event)} {k₀ k : ProbeKey} {e₀ e : Event}
    (h : (k, e) ∈ upsert l k₀ e₀) :
    (k = k₀ ∧ e = e₀) ∨ ((k, e) ∈ l ∧ k ≠ k₀) := by
  by_cases ha : l.any (fun p => decide (p.1 = k₀)) = true
  · rw [upsert, if_pos ha] at h
    obtain ⟨p, hp, hrep⟩ := List.mem_map.mp h
    by_cases hk : p.1 = k₀
    · rw [if_pos hk] at hrep
      left
      exact ⟨(Prod.mk.injEq .. ▸ hrep).1.symm, (Prod.mk.injEq .. ▸ hrep).2.symm⟩
    · rw [if_neg hk] at hrep
      right
      refine ⟨hrep ▸ hp, ?_⟩
      intro hkk
      apply hk
      rw [hrep]
      exact hkk
  · rw [upsert, if_neg ha] at h
    rcases List.mem_append.mp h with hl | hr
    · right
      refine ⟨hl, fun hkk => ha ?_⟩
      subst hkk
      exact List.any_eq_true.mpr ⟨(k, e), hl, by simp⟩
    · left
      simpa using hr

/-- A dict assignment either replaces in place (key sequence untouched) or
appends a key not present before. -/
theorem upsert_map_fst (l : List (ProbeKey × Event)) (k₀ : ProbeKey) (e₀ : Event) :
    (upsert l k₀ e₀).map Prod.fst = l.map Prod.fst ∨
    ((upsert l k₀ e₀).map Prod.fst = l.map Prod.fst ++ [k₀] ∧
      k₀ ∉ l.map Prod.fst) := by
  by_cases ha : l.any (fun p => decide (p.1 = k₀)) = true
  · left
    rw [upsert, if_pos ha, List.map_map]
    apply List.map_congr_left
    intro p _
    by_cases hk : p.1 = k₀ <;> simp [hk]
  · right
    constructor
    · rw [upsert, if_neg ha]
      simp
    · intro hmem
      apply ha
      obtain ⟨p, hp, hfst⟩ := List.mem_map.mp hmem
      exact List.any_eq_true.mpr ⟨p, hp, by simp [hfst]⟩

/-- C3: the dedup dictionary holds at most one surviving event per probe key
(its key sequence has no duplicates), the survivor stored under key `k` is
the event at the latest log position among those with probe key `k` (the
last element of the filtered log, independent of any timestamp field), and
two events that both lack `width` and `height` while agreeing on `suite`,
`label` and `test` collide on the same probe key (`none` participates as a
distinct key component). -/
theorem dedup_last_write_wins (events : List Event) :
    ((lastByKey events).map Prod.fst).Nodup ∧
    (∀ k e, (k, e) ∈ lastByKey events →
      (events.filter (fun x => decide (probeKey x = k))).getLast? = some e) ∧
    (∀ e₁ e₂ : Event, e₁.width = none → e₁.height = none →
      e₂.width = none → e₂.height = none → e₁.suite = e₂.suite →
      e₁.label = e₂.label → e₁.test = e₂.test → probeKey e₁ = probeKey e₂) := by
  refine ⟨?_, ?_, ?_⟩
  · -- no duplicate keys, by reverse induction on the log
    induction events using List.reverseRecOn with
    | nil => simp [lastByKey]
    | append_singleton es e₀ ih =>
      rw [lastByKey_concat]
      rcases upsert_map_fst (lastByKey es) (probeKey e₀) e₀ with h | ⟨h, hnot⟩
      · rw [h]; exact ih
      · rw [h]
        simp [List.nodup_append, ih, hnot]
  · -- last write wins, by reverse induction on the log
    induction events using List.reverseRecOn with
    | nil => simp [lastByKey]
    | append_singleton es e₀ ih =>
      intro k e hmem
      rw [lastByKey_concat] at hmem
      rw [List.filter_append]
      rcases mem_upsert hmem with ⟨rfl, rfl⟩ | ⟨hold, hne⟩
      · have : List.filter (fun x => decide (probeKey x = probeKey e)) [e] = [e] := by
          simp
        rw [this, List.getLast?_concat]
      · have : List.filter (fun x => decide (probeKey x = k)) [e₀] = [] := by
          simp [Ne.symm hne]
        rw [this, List.append_nil]
        exact ih k e hold
  · intro e₁ e₂ hw₁ hh₁ hw₂ hh₂ hs hl ht
    simp [probeKey, hw₁, hh₁, hw₂, hh₂, hs, hl, ht]

/-- Witness for C3: of two concrete events sharing a probe key, the dedup
dictionary retains the later one, and two events without `width`/`height`
agreeing on `suite`/`label`/`test` have equal probe keys. -/
theorem dedup_last_write_wins_witness :
    (List.filter
        (fun x => decide (probeKey x =
          probeKey { suite := some "s", label := some "l", test := some "t",
                     avgMs := some (mkRat 2 1) }))
        [{ suite := some "s", label := some "l", test := some "t",
           avgMs := some (mkRat 1 1) },
         { suite := some "s", label := some "l", test := some "t",
           avgMs := some (mkRat 2 1) }]).getLast? =
      some { suite := some "s", label := some "l", test := some "t",
             avgMs := some (mkRat 2 1) } ∧
    probeKey { suite := some "s", label := some "l", test := some "t",
               avgMs := some (mkRat 1 1) } =
      probeKey { suite := some "s", label := some "l", test := some "t",
                 avgMs := some (mkRat 2 1) } :=
  ⟨(dedup_last_write_wins
      [{ suite := some "s", label := some "l", test := some "t",
         avgMs := some (mkRat 1 1) },
       { suite := some "s", label := some "l", test := some "t",
         avgMs := some (mkRat 2 1) }]).2.1 _ _ (by decide),
    (dedup_last_write_wins []).2.2
      { suite := some "s", label := some "l", test := some "t",
        avgMs := some (mkRat 1 1) }
      { suite := some "s", label := some "l", test := some "t",
        avgMs := some (mkRat 2 1) }
      rfl rfl rfl rfl rfl rfl rfl⟩

set_option maxHeartbeats 1600000 in
/-- C7: when the run filter selects zero events, the rendered report is
exactly the header with event count 0 (plus the runID and generation
timestamp lines; the os/arch lines are omitted since there is no first
event) followed by all five category sections, each showing its explicit
"no events found" placeholder line, and the Files section — no section is
omitted. -/
theorem empty_run_report (parse : String → Option Event) (log : Option (List String))
    (runId g relE relS : String) (hg : g ≠ "")
    (h : filterRun runId (readJsonl parse log) = []) :
    summaryText runId g (filterRun runId (readJsonl parse log)) relE relS =
      "# MetaVis Metrics Run\n\n" ++
        ("- runID: `" ++ runId ++ "`\n") ++
        "- events: `0`\n" ++
        ("- generatedUTC: `" ++ g ++ "`\n") ++
        "\n" ++
        "## Performance\n\n(no perf events found for this run)\n\n" ++
        "## Memory\n\n(no memory events found for this run)\n\n" ++
        "## Color (ΔE2000)\n\n(no ΔE events found for this run)\n\n" ++
        "## Studio LUT Reference Match\n\n(no Studio LUT match events found for this run)\n\n" ++
        "## OCIO Re-bake Match\n\n(no OCIO bake match events found for this run)\n\n" ++
        ("## Files\n\n- events: `" ++ relE ++ "`\n- summary: `" ++ relS ++ "`\n") := by
  rw [h]
  have hgE : g.isEmpty = false := by
    cases hE : g.isEmpty with
    | false => rfl
    | true => exact absurd ((String.isEmpty_iff g).mp hE) hg
  have hgen : generatedLine g = "- generatedUTC: `" ++ g ++ "`\n" := by
    rw [generatedLine, hgE]
    rfl
  show
    "# MetaVis Metrics Run\n\n" ++
      ("- runID: `" ++ runId ++ "`\n") ++
      ("- events: `" ++ toString (List.length ([] : List Event)) ++ "`\n") ++
      osLine none ++ archLine none ++ generatedLine g ++ "\n" ++
      perfSection (sortLe perfLe (perfRowsOf (survivors []))) ++
      memSection (sortLe memLe (memRowsOf (survivors []))) ++
      colorSection (sortLe colorLe (colorRowsOf (survivors []))) ++
      studioSection (sortLe studioLe (studioRowsOf (survivors []))) ++
      ocioSection (sortLe ocioLe (ocioRowsOf (survivors []))) ++
      filesSection relE relS = _
  rw [hgen, show osLine none = "" from rfl, show archLine none = "" from rfl,
    String.append_empty, String.append_empty]
  rfl

/-- Witness for C7: the empty log filtered by any run identifier renders the
all-placeholder report. -/
theorem empty_run_report_witness :
    summaryText ("A") ("T") (filterRun ("A") (readJsonl (fun _ => none) none))
        ("e.jsonl") ("s.md") =
      "# MetaVis Metrics Run\n\n" ++
        ("- runID: `" ++ "A" ++ "`\n") ++
        "- events: `0`\n" ++
        ("- generatedUTC: `" ++ "T" ++ "`\n") ++
        "\n" ++
        "## Performance\n\n(no perf events found for this run)\n\n" ++
        "## Memory\n\n(no memory events found for this run)\n\n" ++
        "## Color (ΔE2000)\n\n(no ΔE events found for this run)\n\n" ++
        "## Studio LUT Reference Match\n\n(no Studio LUT match events found for this run)\n\n" ++
        "## OCIO Re-bake Match\n\n(no OCIO bake match events found for this run)\n\n" ++
        ("## Files\n\n- events: `" ++ "e.jsonl" ++ "`\n- summary: `" ++ "s.md" ++ "`\n") :=
  empty_run_report (fun _ => none) none ("A") ("T") ("e.jsonl") ("s.md")
    (by decide) rfl

/-- C1 fails as stated: the report embeds the generation wall-clock timestamp
in its `generatedUTC` header line, so two archiver runs over the same
unchanged (here: absent) log at different times produce summaries that are
not byte-identical. -/
theorem archiver_summary_not_byte_identical :
    (archive (fun _ => none) none ("A") ("2024-01-01T00:00:00Z") ("e") ("s")).2 ≠
      (archive (fun _ => none) none ("A") ("2024-01-01T00:00:01Z") ("e") ("s")).2 := by
  decide

/-- C1 as amended: re-running the archiver for the same run identifier
against an unchanged log produces a byte-identical `events.jsonl` regardless
of the wall clock, and a byte-identical `summary.md` exactly when the two
runs render the same `generatedUTC` timestamp (the summary is otherwise a
deterministic function of the log, the run identifier and that timestamp). -/
theorem archiver_rerun_outputs (parse : String → Option Event)
    (log : Option (List String)) (runId g₁ g₂ relE relS : String) :
    (archive parse log runId g₁ relE relS).1 = (archive parse log runId g₂ relE relS).1 ∧
    (g₁ = g₂ →
      archive parse log runId g₁ relE relS = archive parse log runId g₂ relE relS) :=
  ⟨rfl, fun h => by rw [h]⟩

/-- Witness for C1 (amended): concrete runs at the same timestamp coincide,
and the events slice ignores the timestamp. -/
theorem archiver_rerun_outputs_witness :
    (archive (fun _ => none) none ("A") ("T1") ("e") ("s")).1 =
      (archive (fun _ => none) none ("A") ("T2") ("e") ("s")).1 ∧
    archive (fun _ => none) none ("A") ("T1") ("e") ("s") =
      archive (fun _ => none) none ("A") ("T1") ("e") ("s") :=
  ⟨(archiver_rerun_outputs (fun _ => none) none ("A") ("T1") ("T2") ("e") ("s")).1,
    (archiver_rerun_outputs (fun _ => none) none ("A") ("T1") ("T1") ("e") ("s")).2 rfl⟩

end Metavis
